import Mathlib

/-!
Verification of the reconnecting database session in database.go.

This file gives a shallow embedding of the session manager: the session
state (the fields of struct DB_Session), the supervisor loop
handleReconnect, the operations connect / ping / Close / GetConnection,
and the health-monitor goroutine spawned by connect.  The concurrent
system is embedded as an executable small-step transition function over
an explicit state; goroutine interleavings and adapter outcomes (pool
open, ping, acquire) are driven by an event trace.  Unbuffered channel
communication is modelled as an atomic rendezvous event; receiving from a
closed channel succeeds immediately (Go semantics), and sending on a
closed channel or closing a closed channel is a panic, modelled by the
crashed flag.  GetConnection, whose loop only reads session state, is
embedded separately as a loop over per-iteration snapshots of the
concurrently evolving session.
-/

namespace BookBotDB

/-- Connection parameters (struct DB_Params in database.go). -/
structure DB_Params where
  Server : String
  MaxConnectAttempts : Nat
deriving DecidableEq

/-- The constant reconnectDelay = 2 * time.Second, in milliseconds. -/
def reconnectDelayMs : Nat := 2000

/-- The constant healthCheckDelay = 2 * time.Second, in milliseconds. -/
def healthCheckDelayMs : Nat := 2000

/-- The errors appearing in database.go: the two declared sentinel errors
(errAlreadyClosed, errShutdown) plus the adapter-level errors returned by
the pgxpool collaborator (open, ping, acquire). -/
inductive Err
  | alreadyClosed
  | shutdown
  | adapterOpen
  | adapterPing
  | adapterAcquire
deriving DecidableEq

/-- Position of the supervisor goroutine (handleReconnect) in its loop. -/
inductive Phase
  /-- At the top of the for loop, about to call connect. -/
  | connecting
  /-- connect failed; waiting in the select on done / time.After. -/
  | backoff
  /-- connect succeeded; waiting in the select on done / notifyConnClose. -/
  | monitoring
  /-- handleReconnect has returned. -/
  | stopped
deriving DecidableEq

/-- The whole system state.  The fields isReady, pool and closedCh mirror
the DB_Session fields isReady, pool, and the pair done/notifyConnClose
(the two channels are only ever closed, and Close closes both together, so
one flag records it).  Pool handles are numbered by a counter nextId.
The remaining fields model the execution: phase is the supervisor's
position, monitors lists the live health-monitor goroutines (each entry
is the pool id current when that monitor was spawned), closedPools lists
ids of pools on which pool.Close() was called, poolsCreated counts calls
to pgxpool.NewWithConfig, now is elapsed time in ms, attempts counts
connect attempts, and crashed records a Go panic (send on a closed
channel, or closing a closed channel). -/
structure State where
  isReady : Bool
  pool : Option Nat
  closedCh : Bool
  phase : Phase
  monitors : List Nat
  nextId : Nat
  poolsCreated : Nat
  closedPools : List Nat
  now : Nat
  attempts : Nat
  crashed : Bool
deriving DecidableEq

/-- The state right after NewDB: channels open, no pool, supervisor
goroutine started at the top of its loop. -/
def initState : State :=
  { isReady := false, pool := none, closedCh := false, phase := .connecting,
    monitors := [], nextId := 0, poolsCreated := 0, closedPools := [],
    now := 0, attempts := 0, crashed := false }

/-- The function connect (database.go lines 87-117) as a state
transformer.  The two adapter outcomes (pool open, initial ping) are
inputs.  Mirrors the source order: on open failure return at once (pool
field untouched); otherwise assign session.pool BEFORE pinging; on ping
failure return with the pool field already replaced by the new handle; on
success spawn the monitor goroutine and set isReady. -/
def connectF (s : State) (openOk pingOk : Bool) : State × Option Err :=
  if openOk then
    let h := s.nextId
    let s1 := { s with pool := some h, nextId := h + 1,
                       poolsCreated := s.poolsCreated + 1 }
    if pingOk then
      ({ s1 with monitors := s1.monitors ++ [h], isReady := true }, none)
    else (s1, some Err.adapterPing)
  else (s, some Err.adapterOpen)

/-- The method Close (database.go lines 154-164) as a state transformer.
If the session is not ready it returns errAlreadyClosed and touches
nothing.  Otherwise it closes the pool, then closes done and
notifyConnClose and clears isReady; closing the channels a second time is
a Go panic, modelled by crashed. -/
def closeF (s : State) : State × Option Err :=
  if s.isReady then
    let s1 := { s with closedPools := s.closedPools ++ s.pool.toList }
    if s.closedCh then ({ s1 with crashed := true }, none)
    else ({ s1 with closedCh := true, isReady := false }, none)
  else (s, some Err.alreadyClosed)

/-- The events that drive the system, one atomic step of some goroutine.
attempt is one full run of connect from the loop top of handleReconnect
(including the isReady = false reset at the loop top), with the adapter
outcomes as parameters.  monitorPing is one health-check tick of the i-th
live monitor goroutine; a failed ping makes the monitor send on
notifyConnClose: a rendezvous with the supervisor's select, or a panic if
the channel is already closed.  backoffElapse is time.After firing;
backoffShutdown and takeDone are the supervisor receiving from the closed
done channel; zombieNotify is the supervisor receiving from the CLOSED
notifyConnClose channel, which is possible after Close because a Go
select picks uniformly among ready cases and a closed channel is always
ready.  closeCall is a user call to Close. -/
inductive Event
  | attempt (openOk pingOk : Bool)
  | backoffElapse
  | backoffShutdown
  | monitorPing (i : Nat) (ok : Bool)
  | takeDone
  | zombieNotify
  | closeCall
deriving DecidableEq

/-- One atomic step of the system.  Returns none when the event is not
enabled in the given state (or the process already panicked).  The
parameters p are threaded exactly as session.params is in the source:
available everywhere, read nowhere. -/
def step (p : DB_Params) (s : State) (e : Event) : Option State :=
  if s.crashed then none
  else
    match e with
    | .attempt openOk pingOk =>
      if s.phase = Phase.connecting then
        let s0 := { s with isReady := false, attempts := s.attempts + 1 }
        let r := connectF s0 openOk pingOk
        match r.2 with
        | some _ => some { r.1 with phase := .backoff }
        | none => some { r.1 with phase := .monitoring }
      else none
    | .backoffElapse =>
      if s.phase = Phase.backoff ∧ s.closedCh = false then
        some { s with phase := .connecting, now := s.now + reconnectDelayMs }
      else none
    | .backoffShutdown =>
      if s.phase = Phase.backoff ∧ s.closedCh = true then
        some { s with phase := .stopped }
      else none
    | .monitorPing i ok =>
      if i < s.monitors.length then
        if ok then some s
        else if s.closedCh then
          some { s with monitors := s.monitors.eraseIdx i, crashed := true }
        else if s.phase = Phase.monitoring then
          some { s with monitors := s.monitors.eraseIdx i,
                        isReady := false, phase := .connecting }
        else none
      else none
    | .takeDone =>
      if s.phase = Phase.monitoring ∧ s.closedCh = true then
        some { s with phase := .stopped }
      else none
    | .zombieNotify =>
      if s.phase = Phase.monitoring ∧ s.closedCh = true then
        some { s with phase := .connecting, isReady := false }
      else none
    | .closeCall => some (closeF s).1

/-- Run a trace of events from a state; none if some event is not
enabled along the way. -/
def runFrom (p : DB_Params) : State → List Event → Option State
  | s, [] => some s
  | s, e :: tr =>
    match step p s e with
    | none => none
    | some s1 => runFrom p s1 tr

/-- Fixed parameters for concrete runs (never read by step). -/
def dP : DB_Params := { Server := "postgres://localhost/books", MaxConnectAttempts := 5 }

/-- Run a trace from the freshly constructed session. -/
def runTrace (tr : List Event) : Option State := runFrom dP initState tr

/-- The specification-side readiness predicate, per event: readiness
becomes true at a successful connect (open plus initial ping), false at a
detected ping failure or at a Close call, and is otherwise unchanged. -/
def readyStep (b : Bool) : Event → Bool
  | .attempt openOk pingOk => openOk && pingOk
  | .monitorPing _ ok => if ok then b else false
  | .closeCall => false
  | _ => b

/-- Fold of readyStep over a trace, from a given starting value. -/
def readySpecFrom (b : Bool) : List Event → Bool
  | [] => b
  | e :: tr => readySpecFrom (readyStep b e) tr

/-- The specification-side readiness after a trace: true exactly when the
trace contains a successful connect with no later detected ping failure
and no later Close call. -/
def readySpec (tr : List Event) : Bool := readySpecFrom false tr

/-- The inductive invariant for traces without post-shutdown spurious
wakeups: once the channels are closed the session is not ready and the
supervisor is past its connect/backoff phases; in the connect/backoff
phases the session is not ready and no monitor is alive; a ready session
holds a pool handle; at most one monitor is alive; and every live monitor
was spawned for the currently held pool handle. -/
def Inv (s : State) : Prop :=
  (s.closedCh = true → s.isReady = false ∧ s.phase ≠ Phase.connecting ∧ s.phase ≠ Phase.backoff)
  ∧ ((s.phase = Phase.connecting ∨ s.phase = Phase.backoff) → s.isReady = false ∧ s.monitors = [])
  ∧ (s.isReady = true → s.pool.isSome = true)
  ∧ s.monitors.length ≤ 1
  ∧ (∀ hId ∈ s.monitors, s.pool = some hId)

/-- One iteration's observation of the concurrently evolving session, as
read by GetConnection: the readiness flag, the outcome of pool.Acquire,
and whether the done channel is closed when the retry select runs. -/
structure GCObs where
  ready : Bool
  acquireOk : Bool
  doneClosed : Bool
deriving DecidableEq

/-- What a GetConnection call can return: a borrowed connection or an
error value. -/
inductive GCOut
  | conn
  | errOut (e : Err)
deriving DecidableEq

/-- The helper getConnection (database.go lines 143-152): fail with
errAlreadyClosed when not ready, otherwise pool.Acquire, surfacing its
error on failure. -/
def getConnectionF (o : GCObs) : GCOut :=
  if o.ready then
    if o.acquireOk then GCOut.conn else GCOut.errOut Err.adapterAcquire
  else GCOut.errOut Err.alreadyClosed

/-- The method GetConnection (database.go lines 127-141): on any error
from getConnection, select on done versus time.After(reconnectDelay); a
closed done channel is immediately ready so the call returns errShutdown
without the delay, otherwise it waits out the delay and retries.  Fuel
bounds the number of iterations; none means the call is still looping. -/
def gcLoop (os : Nat → GCObs) : Nat → Option GCOut
  | 0 => none
  | n + 1 =>
    match getConnectionF (os 0) with
    | GCOut.conn => some GCOut.conn
    | GCOut.errOut _ =>
      if (os 0).doneClosed then some (GCOut.errOut Err.shutdown)
      else gcLoop (fun i => os (i + 1)) n

/-- The state of the supervisor after n connect attempts that all failed
at the open step, each followed by one full backoff delay. -/
def failRun (n : Nat) : State :=
  { initState with now := n * reconnectDelayMs, attempts := n }

/-- The trace of n failed connect attempts, each followed by its backoff
delay. -/
def failTrace : Nat → List Event
  | 0 => []
  | n + 1 => failTrace n ++ [Event.attempt false false, Event.backoffElapse]

/-- The state after n failed connect attempts followed by a successful
one: ready, one pool created, one monitor alive, n backoff delays
elapsed. -/
def succState (n : Nat) : State :=
  { isReady := true, pool := some 0, closedCh := false, phase := .monitoring,
    monitors := [0], nextId := 1, poolsCreated := 1, closedPools := [],
    now := n * reconnectDelayMs, attempts := n + 1, crashed := false }

/-- Trace: connect succeeds at the first attempt. -/
def connTr : List Event := [Event.attempt true true]

/-- Trace: connect succeeds, then Close is called. -/
def closeTr : List Event := connTr ++ [Event.closeCall]

/-- Trace: after Close, the supervisor's select takes the (closed)
notifyConnClose case and reconnects successfully: the post-shutdown
zombie reconnect permitted by Go select semantics. -/
def zombieTr : List Event := closeTr ++ [Event.zombieNotify, Event.attempt true true]

/-- Trace: connect, Close, and the supervisor takes the done case and
returns (the intended shutdown path). -/
def stopTr : List Event := closeTr ++ [Event.takeDone]

/-- State after connTr. -/
def sConn : State := (runTrace connTr).getD initState

/-- State after closeTr. -/
def sClosed : State := (runTrace closeTr).getD initState

/-- State after zombieTr. -/
def sZombie : State := (runTrace zombieTr).getD initState

/-- State after stopTr. -/
def sStop : State := (runTrace stopTr).getD initState

/-- Counterexample trace for claim C1: connect, Close, spurious wakeup,
zombie reconnect, second spurious wakeup.  The last wakeup clears
isReady although the history contains a successful connect with no later
detected ping failure and no later Close. -/
def c1cexTr : List Event :=
  [Event.attempt true true, Event.closeCall, Event.zombieNotify,
   Event.attempt true true, Event.zombieNotify]

/-- The invariant holds in the initial state. -/
theorem inv_init : Inv initState := by
  refine ⟨?_, ?_, ?_, ?_, ?_⟩ <;> simp [initState, Inv]

/-- Preservation: every enabled step other than a post-shutdown spurious
wakeup preserves the invariant, and updates isReady exactly as the
specification-side readyStep predicts. -/
theorem step_inv (p : DB_Params) (s s' : State) (e : Event) (hz : e ≠ Event.zombieNotify)
    (hI : Inv s) (h : step p s e = some s') :
    Inv s' ∧ s'.isReady = readyStep s.isReady e := by
  obtain ⟨hA, hB, hC, hD, hE⟩ := hI
  cases e with
  | attempt openOk pingOk =>
    simp only [step] at h
    split_ifs at h with hcr hph
    obtain ⟨hr0, hm0⟩ := hB (Or.inl hph)
    have hcc : s.closedCh = false := by
      cases hcl : s.closedCh
      · rfl
      · exact absurd hph (hA hcl).2.1
    cases openOk <;> cases pingOk <;> simp [connectF] at h <;> subst h
    · exact ⟨⟨by simp [hcc], fun _ => ⟨rfl, hm0⟩, by simp, by simp [hm0],
        by simp [hm0]⟩, by simp [readyStep]⟩
    · exact ⟨⟨by simp [hcc], fun _ => ⟨rfl, hm0⟩, by simp, by simp [hm0],
        by simp [hm0]⟩, by simp [readyStep]⟩
    · exact ⟨⟨by simp [hcc], fun _ => ⟨rfl, hm0⟩, by simp, by simp [hm0],
        by simp [hm0]⟩, by simp [readyStep]⟩
    · exact ⟨⟨by simp [hcc], by simp, by simp, by simp [hm0],
        by simp [hm0]⟩, by simp [readyStep]⟩
  | backoffElapse =>
    simp only [step] at h
    split_ifs at h with hcr hcond
    rw [Option.some.injEq] at h
    subst h
    obtain ⟨hph, hcc⟩ := hcond
    obtain ⟨hr0, hm0⟩ := hB (Or.inr hph)
    exact ⟨⟨by simp [hcc], fun _ => ⟨hr0, hm0⟩, by simp [hr0], hD, hE⟩, rfl⟩
  | backoffShutdown =>
    simp only [step] at h
    split_ifs at h with hcr hcond
    exact absurd hcond.1 (hA hcond.2).2.2
  | monitorPing i ok =>
    simp only [step] at h
    split_ifs at h with hcr hlen hok hcl hph <;> rw [Option.some.injEq] at h <;> subst h
    · -- successful ping: the monitor keeps looping, nothing changes
      exact ⟨⟨hA, hB, hC, hD, hE⟩, by simp [readyStep, hok]⟩
    · -- failed ping with channels closed: the monitor's send panics
      have hok' : ok = false := by
        cases ok
        · rfl
        · exact absurd rfl hok
      refine ⟨⟨fun _ => ⟨(hA hcl).1, (hA hcl).2.1, (hA hcl).2.2⟩,
        fun hp => ⟨(hB hp).1, by simp [(hB hp).2]⟩, hC, ?_, ?_⟩,
        by simp [readyStep, hok', (hA hcl).1]⟩
      · exact le_trans (List.Sublist.length_le (List.eraseIdx_sublist _ i)) hD
      · intro hId hmem
        exact hE hId (List.Sublist.mem hmem (List.eraseIdx_sublist _ i))
    · -- failed ping rendezvous: the supervisor receives the death signal
      -- and loops back to the top (isReady reset, phase connecting)
      have hok' : ok = false := by
        cases ok
        · rfl
        · exact absurd rfl hok
      have hcl' : s.closedCh = false := by
        cases hcle : s.closedCh
        · rfl
        · exact absurd hcle hcl
      have hnil : s.monitors.eraseIdx i = [] := by
        have hlen2 : (s.monitors.eraseIdx i).length = s.monitors.length - 1 := by
          rw [List.length_eraseIdx]
          simp [hlen]
        have hone : s.monitors.length = 1 := by omega
        exact List.length_eq_zero.mp (by omega)
      exact ⟨⟨by simp [hcl'], fun _ => ⟨rfl, hnil⟩, by simp, by simp [hnil],
        by simp [hnil]⟩, by simp [readyStep, hok']⟩
  | takeDone =>
    simp only [step] at h
    split_ifs at h with hcr hcond
    rw [Option.some.injEq] at h
    subst h
    exact ⟨⟨fun _ => ⟨(hA hcond.2).1, by simp, by simp⟩, by simp, hC, hD, hE⟩, rfl⟩
  | zombieNotify => exact absurd rfl hz
  | closeCall =>
    simp only [step] at h
    split_ifs at h with hcr
    simp only [closeF] at h
    split_ifs at h with hrd hcl <;> rw [Option.some.injEq] at h <;> subst h
    · exact absurd (hA hcl).1 (by simp [hrd])
    · have hph : s.phase ≠ Phase.connecting ∧ s.phase ≠ Phase.backoff := by
        constructor <;> intro hp
        · have hx := (hB (Or.inl hp)).1
          rw [hrd] at hx; cases hx
        · have hx := (hB (Or.inr hp)).1
          rw [hrd] at hx; cases hx
      exact ⟨⟨fun _ => ⟨rfl, hph.1, hph.2⟩,
        by intro hp; exact absurd hp (not_or.mpr ⟨hph.1, hph.2⟩),
        by simp, hD, hE⟩, by simp [readyStep]⟩
    · have hrd' : s.isReady = false := by
        cases hre : s.isReady
        · rfl
        · exact absurd hre hrd
      exact ⟨⟨hA, hB, hC, hD, hE⟩, by simp [readyStep, hrd']⟩

/-- Trace version of the invariant: any run without post-shutdown
spurious wakeups ends in a state satisfying the invariant, whose isReady
equals the specification-side fold. -/
theorem runFrom_inv (p : DB_Params) (tr : List Event) :
    ∀ s0 s : State, Inv s0 → runFrom p s0 tr = some s → Event.zombieNotify ∉ tr →
      Inv s ∧ s.isReady = readySpecFrom s0.isReady tr := by
  induction tr with
  | nil =>
    intro s0 s hI h _
    simp only [runFrom] at h
    rw [Option.some.injEq] at h
    subst h
    exact ⟨hI, rfl⟩
  | cons e tr ih =>
    intro s0 s hI h hz
    simp only [runFrom] at h
    cases hs : step p s0 e with
    | none => rw [hs] at h; cases h
    | some s1 =>
      rw [hs] at h
      have hze : e ≠ Event.zombieNotify := fun he => hz (he ▸ List.mem_cons_self e tr)
      obtain ⟨hI1, hr1⟩ := step_inv p s0 s1 e hze hI hs
      obtain ⟨hI2, hr2⟩ := ih s1 s hI1 h (fun hm => hz (List.mem_cons_of_mem e hm))
      refine ⟨hI2, ?_⟩
      rw [hr2, hr1]
      rfl

/-- Every step preserves the property that a stopped supervisor implies
the shutdown signal was issued.  This holds for ALL events, spurious
post-shutdown wakeups included. -/
theorem step_stop (p : DB_Params) (s s' : State) (e : Event)
    (h : step p s e = some s') (h0 : s.phase = Phase.stopped → s.closedCh = true) :
    s'.phase = Phase.stopped → s'.closedCh = true := by
  cases e with
  | attempt openOk pingOk =>
    simp only [step] at h
    split_ifs at h with hcr hph
    cases openOk <;> cases pingOk <;> simp [connectF] at h <;> subst h <;>
      intro hp <;> simp at hp
  | backoffElapse =>
    simp only [step] at h
    split_ifs at h with hcr hcond
    rw [Option.some.injEq] at h
    subst h
    intro hp
    simp at hp
  | backoffShutdown =>
    simp only [step] at h
    split_ifs at h with hcr hcond
    rw [Option.some.injEq] at h
    subst h
    exact fun _ => hcond.2
  | monitorPing i ok =>
    simp only [step] at h
    split_ifs at h with hcr hlen hok hcl hph <;> rw [Option.some.injEq] at h <;> subst h
    · exact h0
    · exact fun _ => hcl
    · intro hp
      simp at hp
  | takeDone =>
    simp only [step] at h
    split_ifs at h with hcr hcond
    rw [Option.some.injEq] at h
    subst h
    exact fun _ => hcond.2
  | zombieNotify =>
    simp only [step] at h
    split_ifs at h with hcr hcond
    rw [Option.some.injEq] at h
    subst h
    intro hp
    simp at hp
  | closeCall =>
    simp only [step] at h
    split_ifs at h with hcr
    simp only [closeF] at h
    split_ifs at h with hrd hcl <;> rw [Option.some.injEq] at h <;> subst h
    · exact fun _ => hcl
    · exact fun _ => rfl
    · exact h0

/-- Trace version: along any run, a stopped supervisor implies the
shutdown signal was issued. -/
theorem runFrom_stop (p : DB_Params) (tr : List Event) :
    ∀ s0 s : State, (s0.phase = Phase.stopped → s0.closedCh = true) →
      runFrom p s0 tr = some s → (s.phase = Phase.stopped → s.closedCh = true) := by
  induction tr with
  | nil =>
    intro s0 s h0 h
    simp only [runFrom] at h
    rw [Option.some.injEq] at h
    subst h
    exact h0
  | cons e tr ih =>
    intro s0 s h0 h
    simp only [runFrom] at h
    cases hs : step p s0 e with
    | none => rw [hs] at h; cases h
    | some s1 =>
      rw [hs] at h
      exact ih s1 s (step_stop p s0 s1 e hs h0) h

/-- Runs compose along trace concatenation. -/
theorem runFrom_append (p : DB_Params) (t1 t2 : List Event) :
    ∀ s : State, runFrom p s (t1 ++ t2) =
      (runFrom p s t1).bind (fun s1 => runFrom p s1 t2) := by
  induction t1 with
  | nil => intro s; rfl
  | cons e t1 ih =>
    intro s
    simp only [List.cons_append, runFrom]
    cases step p s e with
    | none => rfl
    | some s1 => exact ih s1

/-- One more failed attempt plus its backoff advances failRun by one. -/
theorem failRun_step (n : Nat) :
    runFrom dP (failRun n) [Event.attempt false false, Event.backoffElapse] =
      some (failRun (n + 1)) := by
  have harith : failRun (n + 1) =
      { initState with now := n * reconnectDelayMs + reconnectDelayMs, attempts := n + 1 } := by
    rw [failRun, Nat.succ_mul]
  rw [harith]
  rfl

/-- The n-failure trace is a valid run ending in failRun n. -/
theorem failTrace_run (n : Nat) : runTrace (failTrace n) = some (failRun n) := by
  induction n with
  | zero => rfl
  | succ n ih =>
    rw [failTrace, runTrace, runFrom_append,
      show runFrom dP initState (failTrace n) = some (failRun n) from ih]
    exact failRun_step n

/-- After n failed attempts, a successful attempt yields succState n. -/
theorem succ_run (n : Nat) :
    runTrace (failTrace n ++ [Event.attempt true true]) = some (succState n) := by
  rw [runTrace, runFrom_append,
    show runFrom dP initState (failTrace n) = some (failRun n) from failTrace_run n]
  rfl

/-- Any value returned by the GetConnection loop is either a connection
or errShutdown, and errShutdown is returned only at an iteration that
observed the done channel closed. -/
theorem gcLoop_sound (n : Nat) : ∀ (os : Nat → GCObs) (r : GCOut),
    gcLoop os n = some r →
    r = GCOut.conn ∨ (r = GCOut.errOut Err.shutdown ∧ ∃ i, (os i).doneClosed = true) := by
  induction n with
  | zero =>
    intro os r h
    simp [gcLoop] at h
  | succ n ih =>
    intro os r h
    simp only [gcLoop] at h
    cases hg : getConnectionF (os 0) with
    | conn =>
      rw [hg] at h
      rw [Option.some.injEq] at h
      subst h
      exact Or.inl rfl
    | errOut e =>
      rw [hg] at h
      split_ifs at h with hd
      · rw [Option.some.injEq] at h
        subst h
        exact Or.inr ⟨rfl, 0, hd⟩
      · rcases ih _ r h with h1 | ⟨h1, i, h2⟩
        · exact Or.inl h1
        · exact Or.inr ⟨h1, i + 1, h2⟩

/-- Claim C1 (amended): in every execution in which the supervisor never
receives a post-shutdown spurious wakeup from the closed notifyConnClose
channel, isReady is true if and only if the history contains a successful
connect (open plus initial ping) with no later detected ping failure and
no later Close, and a ready session always holds a live pool handle.  The
restriction is forced by the counterexample below: after Close, a Go
select may deliver a spurious notifyConnClose wakeup that breaks the
equivalence. -/
theorem c1_readiness_iff_no_failure_since_connect (tr : List Event) (s : State)
    (h : runTrace tr = some s) (hz : Event.zombieNotify ∉ tr) :
    (s.isReady = true ↔ readySpec tr = true) ∧ (s.isReady = true → s.pool.isSome = true) := by
  obtain ⟨hI, hr⟩ := runFrom_inv dP tr initState s inv_init h hz
  exact ⟨by rw [hr]; exact Iff.rfl, hI.2.2.1⟩

/-- Claim C1 counterexample: the trace connect, Close, spurious wakeup,
successful reconnect, second spurious wakeup is a valid execution whose
final state has isReady false although the history contains a successful
connect with no later detected ping failure and no later Close — so the
claimed equivalence is false as stated. -/
theorem c1_counterexample_spurious_wakeup :
    (runTrace c1cexTr).isSome = true ∧
    ((runTrace c1cexTr).getD initState).isReady = false ∧
    readySpec c1cexTr = true := by decide

/-- Witness for C1 at the one-successful-connect trace. -/
theorem c1_witness :
    (sConn.isReady = true ↔ readySpec connTr = true) ∧
    (sConn.isReady = true → sConn.pool.isSome = true) :=
  c1_readiness_iff_no_failure_since_connect connTr sConn rfl (by decide)

/-- Claim C2 is violated by the code: after Close on a ready session
(shutdown initiated, closedCh true, one pool created), the supervisor's
select may take the closed notifyConnClose case and reconnect, so a
second pool handle is created after shutdown, the session becomes ready
again, and a GetConnection call then returns a connection instead of an
error. -/
theorem c2_pool_created_after_close :
    runTrace closeTr = some sClosed ∧ sClosed.closedCh = true ∧
    sClosed.poolsCreated = 1 ∧
    runTrace zombieTr = some sZombie ∧ sZombie.poolsCreated = 2 ∧
    sZombie.isReady = true ∧
    getConnectionF { ready := sZombie.isReady, acquireOk := true,
                     doneClosed := sZombie.closedCh } = GCOut.conn := by decide

/-- Claim C3 is violated by the code: after Close (shutdown signal
issued), the post-shutdown zombie reconnect makes a subsequent
GetConnection call return a connection rather than errShutdown. -/
theorem c3_acquire_after_close_returns_conn :
    runTrace zombieTr = some sZombie ∧ sZombie.closedCh = true ∧
    gcLoop (fun _ => { ready := sZombie.isReady, acquireOk := true,
                       doneClosed := sZombie.closedCh }) 1 = some GCOut.conn ∧
    GCOut.conn ≠ GCOut.errOut Err.shutdown := by decide

/-- Claim C4: the retry loop is unbounded and never consults
MaxConnectAttempts.  First, the transition function is literally
independent of the parameters (so of the configured bound).  Second, for
every n the n-failure trace is a valid run after which the supervisor is
again about to attempt (phase connecting, a further attempt enabled),
not ready, with n attempts made and exactly one fixed delay between
consecutive attempts (elapsed time n * reconnectDelay).  Third, the loop
terminates only on shutdown: every reachable stopped state has the
shutdown signal issued. -/
theorem c4_retry_unbounded_ignores_max_attempts :
    (∀ p q : DB_Params, step p = step q)
    ∧ (∀ n : Nat, runTrace (failTrace n) = some (failRun n)
        ∧ (failRun n).phase = Phase.connecting ∧ (failRun n).isReady = false
        ∧ (failRun n).attempts = n ∧ (failRun n).now = n * reconnectDelayMs
        ∧ (step dP (failRun n) (Event.attempt false false)).isSome = true)
    ∧ (∀ tr s, runTrace tr = some s → s.phase = Phase.stopped → s.closedCh = true) := by
  refine ⟨fun p q => rfl, fun n => ⟨failTrace_run n, rfl, rfl, rfl, rfl, rfl⟩, ?_⟩
  intro tr s h
  exact runFrom_stop dP tr initState s (by decide) h

/-- Witness for C4 at the connect-close-stop trace. -/
theorem c4_witness : sStop.closedCh = true :=
  c4_retry_unbounded_ignores_max_attempts.2.2 stopTr sStop rfl rfl

/-- Claim C5 (amended): in every execution without post-shutdown spurious
wakeups, at most one health-monitor task is alive, every live monitor was
spawned for the currently held pool handle, and at the top of the
supervisor loop (a fresh connect about to start) no monitor is alive, so
each successful connect starts a fresh monitor for the new handle and no
stale death signal is ever delivered.  The restriction is forced by the
counterexample below: the post-shutdown zombie reconnect spawns a second
monitor while the first is still alive. -/
theorem c5_single_monitor_current_handle (tr : List Event) (s : State)
    (h : runTrace tr = some s) (hz : Event.zombieNotify ∉ tr) :
    s.monitors.length ≤ 1 ∧ (∀ hId ∈ s.monitors, s.pool = some hId)
    ∧ (s.phase = Phase.connecting → s.monitors = []) := by
  obtain ⟨hI, _⟩ := runFrom_inv dP tr initState s inv_init h hz
  exact ⟨hI.2.2.2.1, hI.2.2.2.2, fun hp => (hI.2.1 (Or.inl hp)).2⟩

/-- Claim C5 counterexample: after Close, the spurious-wakeup reconnect
reaches a valid state with two simultaneously live monitor tasks, so "at
most one monitor task is active per live pool handle" is false as
stated. -/
theorem c5_counterexample_two_monitors :
    runTrace zombieTr = some sZombie ∧ sZombie.monitors.length = 2 := by decide

/-- Witness for C5 at the one-successful-connect trace. -/
theorem c5_witness :
    sConn.monitors.length ≤ 1 ∧ (∀ hId ∈ sConn.monitors, sConn.pool = some hId)
    ∧ (sConn.phase = Phase.connecting → sConn.monitors = []) :=
  c5_single_monitor_current_handle connTr sConn rfl (by decide)

/-- Claim C6: whatever the session does concurrently, a value returned by
the GetConnection loop is either a connection or errShutdown — the
not-ready error, and the adapter's acquire errors, are always absorbed by
delay-and-retry — and errShutdown is returned only at an iteration that
observed the shutdown signal. -/
theorem c6_acquire_absorbs_adapter_errors (os : Nat → GCObs) (n : Nat) (r : GCOut)
    (h : gcLoop os n = some r) :
    r = GCOut.conn ∨ (r = GCOut.errOut Err.shutdown ∧ ∃ i, (os i).doneClosed = true) :=
  gcLoop_sound n os r h

/-- Witness for C6 at a ready session with a successful acquire. -/
theorem c6_witness :
    GCOut.conn = GCOut.conn ∨ (GCOut.conn = GCOut.errOut Err.shutdown ∧
      ∃ i, ((fun _ : Nat => GCObs.mk true true false) i).doneClosed = true) :=
  c6_acquire_absorbs_adapter_errors (fun _ => GCObs.mk true true false) 1 GCOut.conn rfl

/-- Claim C7: a connect attempt leaves the session ready exactly when
both the open and the initial ping succeed; and after n attempts whose
open fails, the (n+1)-th, successful attempt is the first that makes the
session ready, with one fixed reconnect delay between consecutive
attempts (total elapsed time n * reconnectDelay, unchanged by the final
successful attempt). -/
theorem c7_ready_iff_open_and_ping :
    (∀ (p : DB_Params) (s s' : State) (openOk pingOk : Bool),
        step p s (Event.attempt openOk pingOk) = some s' →
        (s'.isReady = true ↔ openOk = true ∧ pingOk = true))
    ∧ (∀ n : Nat,
        runTrace (failTrace n ++ [Event.attempt true true]) = some (succState n)
        ∧ (succState n).isReady = true ∧ (succState n).attempts = n + 1
        ∧ (failRun n).isReady = false ∧ (succState n).now = n * reconnectDelayMs) := by
  constructor
  · intro p s s' openOk pingOk h
    simp only [step] at h
    split_ifs at h with hcr hph
    cases openOk <;> cases pingOk <;> simp [connectF] at h <;> subst h <;> simp
  · intro n
    exact ⟨succ_run n, rfl, rfl, rfl, rfl⟩

/-- Witness for C7 at the first attempt from the initial state. -/
theorem c7_witness : sConn.isReady = true ↔ true = true ∧ true = true :=
  c7_ready_iff_open_and_ping.1 dP initState sConn true true rfl

/-- Claim C8: Close is not idempotent.  On a session that is not ready
(never connected, already stopped, or mid-reconnect) Close returns
errAlreadyClosed and changes nothing; on a ready, not-yet-closed session
Close succeeds (returns nil), leaves the session not ready, and a second
Close then returns errAlreadyClosed rather than success. -/
theorem c8_close_not_idempotent (s : State) :
    (s.isReady = false → closeF s = (s, some Err.alreadyClosed))
    ∧ (s.isReady = true → s.closedCh = false →
        (closeF s).2 = none ∧ ((closeF s).1).isReady = false
        ∧ (closeF ((closeF s).1)).2 = some Err.alreadyClosed) := by
  constructor
  · intro hrd
    simp [closeF, hrd]
  · intro hrd hcl
    simp [closeF, hrd, hcl]

/-- Witness for C8 at the connected state. -/
theorem c8_witness :
    (closeF sConn).2 = none ∧ ((closeF sConn).1).isReady = false
    ∧ (closeF ((closeF sConn).1)).2 = some Err.alreadyClosed :=
  (c8_close_not_idempotent sConn).2 rfl rfl

/-- Claim C9: Close on a not-ready session returns errAlreadyClosed and
leaves the entire state unchanged — in particular the channels stay open
and no pool is closed, so no shutdown signal is issued.  Consequently a
GetConnection call that never observes the done channel closed can never
return errShutdown (it keeps waiting), and the supervisor keeps retrying:
both the backoff expiry and the next connect attempt stay enabled. -/
theorem c9_close_on_not_ready_noop (s : State) (h : s.isReady = false) :
    closeF s = (s, some Err.alreadyClosed)
    ∧ (∀ (os : Nat → GCObs) (n : Nat), (∀ i, (os i).doneClosed = false) →
        gcLoop os n ≠ some (GCOut.errOut Err.shutdown))
    ∧ (s.crashed = false → s.closedCh = false → s.phase = Phase.backoff →
        (step dP s Event.backoffElapse).isSome = true)
    ∧ (s.crashed = false → s.phase = Phase.connecting →
        (step dP s (Event.attempt false false)).isSome = true) := by
  refine ⟨by simp [closeF, h], ?_, ?_, ?_⟩
  · intro os n hnd hcon
    rcases gcLoop_sound n os _ hcon with h1 | ⟨h1, i, h2⟩
    · exact absurd h1 (by decide)
    · rw [hnd i] at h2
      exact Bool.noConfusion h2
  · intro hcr hcl hph
    simp [step, hph, hcl, hcr]
  · intro hcr hph
    simp [step, hph, hcr, connectF]

/-- Witness for C9 at the initial (never-ready) state. -/
theorem c9_witness :
    closeF initState = (initState, some Err.alreadyClosed)
    ∧ (step dP initState (Event.attempt false false)).isSome = true :=
  ⟨(c9_close_on_not_ready_noop initState rfl).1,
   (c9_close_on_not_ready_noop initState rfl).2.2.2 rfl rfl⟩

/-- Claim C10: when the open succeeds and the initial ping fails, connect
returns the ping error while the session's pool field has already been
replaced by the fresh handle; no pool is closed by the failed attempt
(closedPools unchanged, so neither the new handle nor the previously held
one), the readiness flag is untouched, and no monitor is spawned. -/
theorem c10_connect_assigns_pool_before_ping (s : State) :
    (connectF s true false).2 = some Err.adapterPing
    ∧ (connectF s true false).1.pool = some s.nextId
    ∧ (connectF s true false).1.closedPools = s.closedPools
    ∧ (connectF s true false).1.isReady = s.isReady
    ∧ (connectF s true false).1.monitors = s.monitors :=
  ⟨rfl, rfl, rfl, rfl, rfl⟩

end BookBotDB
